import Mathlib

/-!
# RecordingThread.cpp — frame capture and record worker

A shallow embedding of `Unreal/Plugins/AirSim/Source/RecordingThread.cpp`.

* The worker object `FRecordingThread` is a record of its member variables.
* Everything the worker writes to (the record stream of the simulation mode, the image files,
  the on-screen message log) is collected in `World`, as append-only traces.
* Everything the worker reads from its collaborators during one call (the capture component,
  the result of the file write, the kinematics, the clock) is an explicit environment argument.
* The static pointer `Runnable`, the constructor and the destructor are modelled by `Process`.
* `clock_->nowNanos() / 1.0E6` is a binary64 division; it is modelled exactly, on naturals.
-/

namespace RecordingThread

/-! ## Engine-side data -/

/-- One pixel of the read-back surface (`FColor`). -/
structure FColor where
  R : Nat
  G : Nat
  B : Nat
  A : Nat
  deriving DecidableEq, Repr

/-- What `FTextureRenderTargetResource` offers to the code: its size and the surface contents
that `ReadSurfaceData` copies out for the full rectangle. -/
structure FTextureRenderTargetResource where
  SizeX : Nat
  SizeY : Nat
  surfaceData : List FColor
  deriving DecidableEq, Repr

/-- The texture target of a capture component; `RenderTargetResource = none` is the null result
of `GetRenderTargetResource()`. -/
structure UTextureRenderTarget2D where
  SurfaceWidth : Nat
  SurfaceHeight : Nat
  RenderTargetResource : Option FTextureRenderTargetResource
  deriving DecidableEq, Repr

/-- A scene capture component; `TextureTarget = none` is the null pointer. -/
structure USceneCaptureComponent2D where
  TextureTarget : Option UTextureRenderTarget2D
  deriving DecidableEq, Repr

/-- The rectangle handed to the read-back command. -/
structure FIntRect where
  minX : Nat
  minY : Nat
  maxX : Nat
  maxY : Nat
  deriving DecidableEq, Repr

/-- The local struct `FReadSurfaceContext` of `ReadPixelsNonBlocking`; `OutData` always points
at the buffer passed in, so it is not a field here. -/
structure FReadSurfaceContext where
  SrcRenderTarget : FTextureRenderTargetResource
  Rect : FIntRect
  deriving DecidableEq, Repr

/-- A task-graph event (the pointee of an `FGraphEventRef`). -/
structure FGraphEvent where
  IsComplete : Bool
  deriving DecidableEq, Repr

/-- Severity passed to `UAirBlueprintLib::LogMessage`. -/
inductive LogDebugLevel where
  | Informational
  | Success
  | Failure
  deriving DecidableEq, Repr

/-- The output of `FImageUtils::CompressImageArray`, kept symbolic: the codec is outside the code
under study, so a compressed image is identified by what was compressed. -/
structure CompressedPng where
  X : Nat
  Y : Nat
  pixels : List FColor
  deriving DecidableEq, Repr

/-- Symbolic `FImageUtils::CompressImageArray`. -/
def CompressImageArray (x y : Nat) (src : List FColor) : CompressedPng :=
  { X := x, Y := y, pixels := src }

/-! ## Kinematics -/

/-- Position vector with components of the scalar type `R`. -/
structure Vector3 (R : Type) where
  x : R
  y : R
  z : R

/-- Orientation quaternion with components of the scalar type `R`. -/
structure Quaternion (R : Type) where
  w : R
  x : R
  y : R
  z : R

/-- Pose of the physics body. -/
structure Pose (R : Type) where
  position : Vector3 R
  orientation : Quaternion R

/-- The part of `getKinematics()` the code reads. -/
structure Kinematics (R : Type) where
  pose : Pose R

/-! ## The worker object and the world it writes to -/

/-- Member variables of `FRecordingThread`. `RenderStatus` and `CompletionStatus` are
`FGraphEventRef`s (`none` is the null reference). `StopTaskCounter` is the value of the
`FThreadSafeCounter`; it is only ever incremented in this file, so it counts the `Stop()` calls.
The two counters are natural numbers: their declarations are in `RecordingThread.h` and in the
engine headers, not in this file, and the model leaves out the wrap-around of a fixed-width
integer after billions of increments. `GameThread` and `Thread` are pointers, kept as
identifiers. -/
structure FRecordingThread where
  imagePath : String
  GameThread : Nat
  Thread : Nat
  imageColor : List FColor
  width : Nat
  height : Nat
  RenderStatus : Option FGraphEvent
  CompletionStatus : Option FGraphEvent
  imagesSaved : Nat
  StopTaskCounter : Nat
  deriving DecidableEq, Repr

/-- Everything the worker writes outside itself: the text appended to `GameThread->record_file`,
the files stored by `FFileHelper::SaveArrayToFile` (oldest first) and the messages passed to
`UAirBlueprintLib::LogMessage` (oldest first). -/
structure World where
  record_file : String
  files : List (String × CompressedPng)
  messages : List (String × String × LogDebugLevel)
  deriving DecidableEq, Repr

/-- The worker together with the world. -/
structure Sys where
  self : FRecordingThread
  world : World
  deriving DecidableEq, Repr

/-! ## The clock conversion `static_cast<uint64_t>(clock_->nowNanos() / 1.0E6)`

`nowNanos()` is an unsigned 64-bit integer and `1.0E6` is a `double`, so the integer is first
converted to binary64 (round to nearest, ties to even), the quotient is the correctly rounded
binary64 quotient, and the cast truncates toward zero. All three steps are exact functions on
naturals. -/

/-- Nearest integer to the rational `a / b` (for `b > 0`), a tie going to the even neighbour. -/
def roundHalfEven (a b : Nat) : Nat :=
  let q := a / b
  let r := a % b
  if 2 * r < b then q
  else if b < 2 * r then q + 1
  else if q % 2 = 0 then q
  else q + 1

/-- Least `k` at or after the start value with `p k`, looking at `fuel` candidates; the value
after the last candidate when none satisfies `p`. -/
def leastFrom (p : Nat → Bool) : Nat → Nat → Nat
  | 0, k => k
  | fuel + 1, k => if p k then k else leastFrom p fuel (k + 1)

/-- Number of low-order bits an unsigned 64-bit integer loses in a 53-bit significand: the least
`s` with `n < 2 ^ (53 + s)`. -/
def droppedBits (n : Nat) : Nat :=
  leastFrom (fun s => decide (n < 2 ^ (53 + s))) 11 0

/-- Conversion of an unsigned 64-bit integer to binary64. The result is an integer again. -/
def uint64ToDouble (n : Nat) : Nat :=
  roundHalfEven n (2 ^ droppedBits n) * 2 ^ droppedBits n

/-- Scale of the binary64 quotient `a / b` of two positive integers with `a / b < 2 ^ 53`: the
least `k` with `2 ^ 52 ≤ (a / b) * 2 ^ k`. -/
def quotientScale (a b : Nat) : Nat :=
  leastFrom (fun k => decide (2 ^ 52 * b ≤ a * 2 ^ k)) 1074 0

/-- Correctly rounded binary64 quotient of the integer-valued doubles `a` and `b`, as a pair
`(m, k)` standing for the value `m / 2 ^ k`. -/
def doubleDiv (a b : Nat) : Nat × Nat :=
  if a = 0 then (0, 0)
  else (roundHalfEven (a * 2 ^ quotientScale a b) b, quotientScale a b)

/-- The cast of a non-negative double `m / 2 ^ k` to `uint64_t`: truncation. -/
def doubleToUint64 (d : Nat × Nat) : Nat :=
  d.1 / 2 ^ d.2

/-- The value of `timestamp_millis` for the clock reading `nanos`. -/
def timestampMillis (nanos : Nat) : Nat :=
  doubleToUint64 (doubleDiv (uint64ToDouble nanos) 1000000)

/-! ## Construction -/

/-- Modelled from the spec: the member declarations and their default initialisers are in
`RecordingThread.h`, which is not among the sources, and the constructor's initialiser list does
not mention `imagesSaved`. The spec's frame index is a non-negative integer whose first value
is 0, so the counter starts at 0. -/
def imagesSavedInitial : Nat := 0

/-- The constructor `FRecordingThread::FRecordingThread(path, AirSim)`. `thread` is the thread
object returned by `FRunnableThread::Create`. The buffer and the two event references are
default-constructed (empty, null). `width` and `height` get a placeholder: `SaveImage` reads them
only when the buffer is non-empty, and only a read-back that has set them fills the buffer. -/
def construct (path : String) (AirSim : Nat) (thread : Nat) : FRecordingThread :=
  { imagePath := path
    GameThread := AirSim
    Thread := thread
    imageColor := []
    width := 0
    height := 0
    RenderStatus := none
    CompletionStatus := none
    imagesSaved := imagesSavedInitial
    StopTaskCounter := 0 }

/-! ## `ReadPixelsNonBlocking` -/

/-- `FRecordingThread::ReadPixelsNonBlocking(imageColor)`. `capture` is the result of
`cam->getCaptureComponent(...)`. Returns the worker and the render command that was enqueued,
if any. Only the innermost branch touches the worker: it stores the surface size, resets the
buffer and enqueues the read-back. -/
def ReadPixelsNonBlocking (capture : Option USceneCaptureComponent2D) (self : FRecordingThread) :
    FRecordingThread × Option FReadSurfaceContext :=
  match capture with
  | none => (self, none)
  | some cap =>
    match cap.TextureTarget with
    | none => (self, none)
    | some target =>
      match target.RenderTargetResource with
      | none => (self, none)
      | some RenderResource =>
        ({ self with
            width := target.SurfaceWidth
            height := target.SurfaceHeight
            imageColor := [] },
         some { SrcRenderTarget := RenderResource
                Rect := { minX := 0, minY := 0,
                          maxX := RenderResource.SizeX, maxY := RenderResource.SizeY } })

/-- The enqueued `ReadSurfaceCommand`, when the render thread executes it: `ReadSurfaceData`
fills the buffer `OutData` points at. -/
def ReadSurfaceCommand (Context : FReadSurfaceContext) (self : FRecordingThread) :
    FRecordingThread :=
  { self with imageColor := Context.SrcRenderTarget.surfaceData }

/-! ## `SaveImage` -/

/-- What `SaveImage` reads from its collaborators: the return value of
`FFileHelper::SaveArrayToFile`, the kinematics of the physics body and the clock. -/
structure SaveEnv (R : Type) where
  imageSavedOk : Bool
  kinematics : Kinematics R
  nowNanos : Nat

/-- `FString::FromInt` applied to the frame counter: decimal digits, no padding. -/
def FromInt (n : Nat) : String := toString n

/-- The path `imagePath + FString::FromInt(imagesSaved) + ".png"`. -/
def framePath (imagePath : String) (frameIndex : Nat) : String :=
  imagePath ++ FromInt frameIndex ++ ".png"

/-- The text the four stream statements of `SaveImage` insert into `record_file`. `fmt` is the
stream's rendering of a scalar of the pose; the timestamp is an unsigned integer and is rendered
in decimal. -/
def recordText {R : Type} (fmt : R → String) (timestamp_millis : Nat) (kinematics : Kinematics R) :
    String :=
  (toString timestamp_millis ++ "\t")
  ++ (fmt kinematics.pose.position.x ++ "\t" ++ fmt kinematics.pose.position.y ++ "\t"
      ++ fmt kinematics.pose.position.z ++ "\t")
  ++ (fmt kinematics.pose.orientation.w ++ "\t" ++ fmt kinematics.pose.orientation.x ++ "\t"
      ++ fmt kinematics.pose.orientation.y ++ "\t" ++ fmt kinematics.pose.orientation.z ++ "\t")
  ++ "\n"

/-- `FRecordingThread::SaveImage()`. -/
def SaveImage {R : Type} (fmt : R → String) (env : SaveEnv R) (st : Sys) : Sys :=
  let complete :=
    match st.self.RenderStatus with
    | some ev => ev.IsComplete
    | none => false
  if 0 < st.self.imageColor.length ∧ complete = true then
    let self1 := { st.self with RenderStatus := none }
    let compressedPng := CompressImageArray self1.width self1.height self1.imageColor
    let filePath := framePath self1.imagePath self1.imagesSaved
    if env.imageSavedOk = false then
      { self := self1
        world := { st.world with
          messages := st.world.messages ++
            [("FAILED to save screenshot to:", filePath, LogDebugLevel.Failure)] } }
    else
      let timestamp_millis := timestampMillis env.nowNanos
      { self := { self1 with imagesSaved := self1.imagesSaved + 1 }
        world :=
          { record_file := st.world.record_file ++ recordText fmt timestamp_millis env.kinematics
            files := st.world.files ++ [(filePath, compressedPng)]
            messages := st.world.messages ++
              [("Screenshot saved to:", filePath, LogDebugLevel.Success)] } }
  else st

/-! ## `Stop`, the completion callback and `Run` -/

/-- `FRecordingThread::Stop()`. -/
def Stop (self : FRecordingThread) : FRecordingThread :=
  { self with
    StopTaskCounter := self.StopTaskCounter + 1
    CompletionStatus := none
    RenderStatus := none }

/-- The lambda that `Run` hands to `FSimpleDelegateGraphTask`. -/
def completionCallback {R : Type} (fmt : R → String) (env : SaveEnv R) (st : Sys) : Sys :=
  if st.self.StopTaskCounter = 0 then SaveImage fmt env st else st

/-- Marks an event reference as completed (a null reference stays null). -/
def completeEvent (ref : Option FGraphEvent) : Option FGraphEvent :=
  ref.map fun _ => { IsComplete := true }

/-- What one pass through the body of the loop in `Run` meets: the capture component, whether
another thread calls `Stop()` after the callback was scheduled and before it runs, and the
collaborators of `SaveImage`. -/
structure IterEnv (R : Type) where
  capture : Option USceneCaptureComponent2D
  stopRequested : Bool
  save : SaveEnv R

/-- One pass through the body of the `while` loop of `Run`:
`ReadPixelsNonBlocking`; the null task `RenderStatus` is dispatched to the render thread; the
delegate task `CompletionStatus` is created with `RenderStatus` as its prerequisite; the render
thread executes the queued read-back and then the null task; the delegate runs;
`WaitUntilTaskCompletes(CompletionStatus)` returns. -/
def iteration {R : Type} (fmt : R → String) (env : IterEnv R) (st : Sys) : Sys :=
  let issued := ReadPixelsNonBlocking env.capture st.self
  let self1 := { issued.1 with RenderStatus := some { IsComplete := false } }
  let self2 := { self1 with CompletionStatus := some { IsComplete := false } }
  let self3 :=
    match issued.2 with
    | some Context => ReadSurfaceCommand Context self2
    | none => self2
  let self4 := { self3 with RenderStatus := completeEvent self3.RenderStatus }
  let self5 := if env.stopRequested = true then Stop self4 else self4
  let st6 := completionCallback fmt env.save { st with self := self5 }
  { st6 with self := { st6.self with CompletionStatus := completeEvent st6.self.CompletionStatus } }

/-- `FRecordingThread::Run()`, observed for as many passes as there are environments in the
list: the loop is entered while `StopTaskCounter` reads zero. -/
def Run {R : Type} (fmt : R → String) : List (IterEnv R) → Sys → Sys
  | [], st => st
  | env :: rest, st =>
    if st.self.StopTaskCounter = 0 then Run fmt rest (iteration fmt env st) else st

/-- The system right after construction: a fresh worker, a record stream that already holds
`record`, and no file or message written by the worker yet. -/
def startSys (path : String) (AirSim : Nat) (thread : Nat) (record : String) : Sys :=
  { self := construct path AirSim thread
    world := { record_file := record, files := [], messages := [] } }

/-! ## The singleton: `ThreadInit`, `EnsureCompletion`, `Shutdown` -/

/-- Lifecycle actions, in the order they happen. -/
inductive Event where
  | threadCreated (thread : Nat)
  | stopped (worker : Nat)
  | joined (thread : Nat)
  | logged (text : String)
  | threadDeleted (thread : Nat)
  | workerDeleted (worker : Nat)
  deriving DecidableEq, Repr

/-- The static state: `Runnable` is the static pointer (`none` is `NULL`), kept together with the
object it points at; `threadsCreated` counts the calls of `FRunnableThread::Create`, and the count
at creation time names the new thread; `events` is the trace of lifecycle actions. -/
structure Process where
  Runnable : Option (Nat × FRecordingThread)
  threadsCreated : Nat
  events : List Event
  deriving DecidableEq, Repr

/-- The value of the static pointer. -/
def Process.handle (p : Process) : Option Nat :=
  p.Runnable.map Prod.fst

/-- `FRecordingThread::ThreadInit(path, AirSim)`. `SupportsMultithreading` is the answer of
`FPlatformProcess::SupportsMultithreading()` and `address` is where `new` places the object.
Returns the pointer and the new static state. -/
def ThreadInit (SupportsMultithreading : Bool) (address : Nat) (path : String) (AirSim : Nat)
    (p : Process) : Option Nat × Process :=
  let p1 : Process :=
    if p.Runnable.isNone = true ∧ SupportsMultithreading = true then
      { Runnable := some (address, construct path AirSim p.threadsCreated)
        threadsCreated := p.threadsCreated + 1
        events := p.events ++ [Event.threadCreated p.threadsCreated] }
    else p
  (p1.handle, p1)

/-- `FRecordingThread::EnsureCompletion()` on the object at `address`: `Stop()`, then
`Thread->WaitForCompletion()`, then the message. -/
def EnsureCompletion (address : Nat) (self : FRecordingThread) (events : List Event) :
    FRecordingThread × List Event :=
  let self1 := Stop self
  (self1, events ++ [Event.stopped address, Event.joined self1.Thread,
                     Event.logged "Stopped recording thread"])

/-- `FRecordingThread::Shutdown()`; `delete Runnable` runs the destructor, which deletes the
thread object. -/
def Shutdown (p : Process) : Process :=
  match p.Runnable with
  | some (address, self) =>
    let done := EnsureCompletion address self p.events
    { Runnable := none
      threadsCreated := p.threadsCreated
      events := done.2 ++ [Event.threadDeleted done.1.Thread, Event.workerDeleted address] }
  | none => p

/-- The static state at program start: `FRecordingThread::Runnable = NULL`. -/
def processStart : Process :=
  { Runnable := none, threadsCreated := 0, events := [] }

/-- A call of one of the two static lifecycle functions. -/
inductive LifecycleCall where
  | threadInit (address : Nat) (path : String) (AirSim : Nat)
  | shutdown
  deriving DecidableEq, Repr

/-- The static state after a sequence of lifecycle calls on a platform whose
`SupportsMultithreading()` answer is fixed. -/
def lifecycle (SupportsMultithreading : Bool) : List LifecycleCall → Process → Process
  | [], p => p
  | LifecycleCall.threadInit address path AirSim :: rest, p =>
    lifecycle SupportsMultithreading rest
      (ThreadInit SupportsMultithreading address path AirSim p).2
  | LifecycleCall.shutdown :: rest, p =>
    lifecycle SupportsMultithreading rest (Shutdown p)

/-! ## Sample data used by the concrete evaluations -/

/-- A solid-colour pixel. -/
def grey : FColor := { R := 128, G := 128, B := 128, A := 255 }

/-- A 2×2 solid-colour surface. -/
def solid2x2 : FTextureRenderTargetResource :=
  { SizeX := 2, SizeY := 2, surfaceData := [grey, grey, grey, grey] }

/-- A capture component whose target and resource are both present. -/
def readyCapture : USceneCaptureComponent2D :=
  { TextureTarget := some { SurfaceWidth := 2, SurfaceHeight := 2,
                            RenderTargetResource := some solid2x2 } }

/-- A capture component without a texture target. -/
def captureWithoutTarget : USceneCaptureComponent2D :=
  { TextureTarget := none }

/-- A capture component whose target has no render resource. -/
def captureWithoutResource : USceneCaptureComponent2D :=
  { TextureTarget := some { SurfaceWidth := 2, SurfaceHeight := 2,
                            RenderTargetResource := none } }

/-- The identity pose over the integers: position 0, orientation (1, 0, 0, 0). -/
def identityKinematics : Kinematics Int :=
  { pose := { position := { x := 0, y := 0, z := 0 }
              orientation := { w := 1, x := 0, y := 0, z := 0 } } }

/-- Stream rendering of a whole-number scalar: for the values 0 and 1 of the identity pose a
C++ stream prints the digits alone. -/
def fmtWhole (v : Int) : String := toString v

/-- A save environment with the identity pose. -/
def sampleSave (ok : Bool) (nanos : Nat) : SaveEnv Int :=
  { imageSavedOk := ok, kinematics := identityKinematics, nowNanos := nanos }

/-- A worker state at the moment the completion callback runs: `k` frames saved so far, the
buffer filled by the read-back, the render task complete, not stopped. -/
def readyToSave (k : Nat) : Sys :=
  { self := { imagePath := "img", GameThread := 0, Thread := 0
              imageColor := [grey, grey, grey, grey], width := 2, height := 2
              RenderStatus := some { IsComplete := true }
              CompletionStatus := some { IsComplete := false }
              imagesSaved := k, StopTaskCounter := 0 }
    world := { record_file := "", files := [], messages := [] } }

/-- The run behind the evaluation of a pass without capture: a first pass that captures and
saves the 2×2 surface, then a pass that meets `missing` in place of a usable capture. -/
def staleRun (missing : Option USceneCaptureComponent2D) : Sys :=
  Run fmtWhole
    [{ capture := some readyCapture, stopRequested := false, save := sampleSave true 5000000 },
     { capture := missing, stopRequested := false, save := sampleSave true 6000000 }]
    (startSys "img" 0 0 "")

/-- The files written so far are named, oldest first, by the frame indices below the counter. -/
def Sequential (st : Sys) : Prop :=
  st.world.files.map Prod.fst = (List.range st.self.imagesSaved).map (framePath st.self.imagePath)

/-- Whether `SaveImage` gets past its guard `imageColor.Num() > 0 && complete`. -/
def saveGuard (st : Sys) : Prop :=
  0 < st.self.imageColor.length ∧
    (match st.self.RenderStatus with
      | some ev => ev.IsComplete
      | none => false) = true

instance (st : Sys) : Decidable (saveGuard st) := by
  unfold saveGuard; infer_instance

/-- The state in which the completion lambda of a pass runs: the part of `iteration` that comes
before the delegate. -/
def beforeCallback {R : Type} (env : IterEnv R) (st : Sys) : Sys :=
  let issued := ReadPixelsNonBlocking env.capture st.self
  let self1 := { issued.1 with RenderStatus := some { IsComplete := false } }
  let self2 := { self1 with CompletionStatus := some { IsComplete := false } }
  let self3 :=
    match issued.2 with
    | some Context => ReadSurfaceCommand Context self2
    | none => self2
  let self4 := { self3 with RenderStatus := completeEvent self3.RenderStatus }
  let self5 := if env.stopRequested = true then Stop self4 else self4
  { st with self := self5 }

/-- The save of a pass succeeds: the lambda finds `StopTaskCounter` at zero and calls
`SaveImage`, `SaveImage` gets past its guard, and the file write reports success. -/
def saveSucceeds {R : Type} (env : IterEnv R) (st : Sys) : Prop :=
  (beforeCallback env st).self.StopTaskCounter = 0 ∧ saveGuard (beforeCallback env st) ∧
    env.save.imageSavedOk = true

instance {R : Type} (env : IterEnv R) (st : Sys) : Decidable (saveSucceeds env st) := by
  unfold saveSucceeds; infer_instance

/-- Number of passes of `Run` whose save succeeds. -/
def successfulSaves {R : Type} (fmt : R → String) : List (IterEnv R) → Sys → Nat
  | [], _ => 0
  | env :: rest, st =>
    if st.self.StopTaskCounter = 0 then
      (if saveSucceeds env st then 1 else 0) + successfulSaves fmt rest (iteration fmt env st)
    else 0

/-- Three passes after construction: a save that succeeds, a save whose file write fails, and
a save that succeeds again. -/
def threePasses : List (IterEnv Int) :=
  [{ capture := some readyCapture, stopRequested := false, save := sampleSave true 5000000 },
   { capture := some readyCapture, stopRequested := false, save := sampleSave false 6000000 },
   { capture := some readyCapture, stopRequested := false, save := sampleSave true 7000000 }]

/-! ## Basic facts about `SaveImage`, `iteration` and `Run` -/

section Lemmas

variable {R : Type} (fmt : R → String)

theorem SaveImage_skip (env : SaveEnv R) (st : Sys) (h : ¬ saveGuard st) :
    SaveImage fmt env st = st := by
  unfold saveGuard at h
  simp only [SaveImage]
  rw [if_neg h]

theorem SaveImage_fail (env : SaveEnv R) (st : Sys) (h : saveGuard st)
    (hfail : env.imageSavedOk = false) :
    SaveImage fmt env st =
      { self := { st.self with RenderStatus := none }
        world := { st.world with
          messages := st.world.messages ++
            [("FAILED to save screenshot to:", framePath st.self.imagePath st.self.imagesSaved,
              LogDebugLevel.Failure)] } } := by
  unfold saveGuard at h
  simp only [SaveImage]
  rw [if_pos h, if_pos hfail]

theorem SaveImage_ok (env : SaveEnv R) (st : Sys) (h : saveGuard st)
    (hok : env.imageSavedOk = true) :
    SaveImage fmt env st =
      { self := { st.self with RenderStatus := none, imagesSaved := st.self.imagesSaved + 1 }
        world :=
          { record_file := st.world.record_file ++
              recordText fmt (timestampMillis env.nowNanos) env.kinematics
            files := st.world.files ++
              [(framePath st.self.imagePath st.self.imagesSaved,
                CompressImageArray st.self.width st.self.height st.self.imageColor)]
            messages := st.world.messages ++
              [("Screenshot saved to:", framePath st.self.imagePath st.self.imagesSaved,
                LogDebugLevel.Success)] } } := by
  unfold saveGuard at h
  have hne : ¬ env.imageSavedOk = false := by simp [hok]
  simp only [SaveImage]
  rw [if_pos h, if_neg hne]

end Lemmas

section Sequence

variable {R : Type} (fmt : R → String)

theorem SaveImage_effect (env : SaveEnv R) (st : Sys) :
    (SaveImage fmt env st).self.imagePath = st.self.imagePath ∧
    (SaveImage fmt env st).self.StopTaskCounter = st.self.StopTaskCounter ∧
    (((SaveImage fmt env st).world.files = st.world.files ∧
        (SaveImage fmt env st).world.record_file = st.world.record_file ∧
        (SaveImage fmt env st).self.imagesSaved = st.self.imagesSaved) ∨
      ((SaveImage fmt env st).world.files = st.world.files ++
          [(framePath st.self.imagePath st.self.imagesSaved,
            CompressImageArray st.self.width st.self.height st.self.imageColor)] ∧
        (SaveImage fmt env st).self.imagesSaved = st.self.imagesSaved + 1)) := by
  by_cases hg : saveGuard st
  · cases hok : env.imageSavedOk
    · rw [SaveImage_fail fmt env st hg hok]
      exact ⟨rfl, rfl, Or.inl ⟨rfl, rfl, rfl⟩⟩
    · rw [SaveImage_ok fmt env st hg hok]
      exact ⟨rfl, rfl, Or.inr ⟨rfl, rfl⟩⟩
  · rw [SaveImage_skip fmt env st hg]
    exact ⟨rfl, rfl, Or.inl ⟨rfl, rfl, rfl⟩⟩

theorem SaveImage_sequential (env : SaveEnv R) (st : Sys) (h : Sequential st) :
    Sequential (SaveImage fmt env st) := by
  unfold Sequential at h ⊢
  obtain ⟨hp, -, hcase⟩ := SaveImage_effect fmt env st
  rcases hcase with ⟨hf, -, hn⟩ | ⟨hf, hn⟩
  · rw [hf, hn, hp]; exact h
  · rw [hf, hn, hp, List.map_append, h, List.range_succ, List.map_append]
    rfl

theorem completionCallback_sequential (env : SaveEnv R) (st : Sys) (h : Sequential st) :
    Sequential (completionCallback fmt env st) := by
  unfold completionCallback
  split
  · exact SaveImage_sequential fmt env st h
  · exact h

theorem ReadPixelsNonBlocking_keeps (capture : Option USceneCaptureComponent2D)
    (self : FRecordingThread) :
    (ReadPixelsNonBlocking capture self).1.imagePath = self.imagePath ∧
    (ReadPixelsNonBlocking capture self).1.imagesSaved = self.imagesSaved ∧
    (ReadPixelsNonBlocking capture self).1.StopTaskCounter = self.StopTaskCounter := by
  unfold ReadPixelsNonBlocking
  split
  · exact ⟨rfl, rfl, rfl⟩
  · split
    · exact ⟨rfl, rfl, rfl⟩
    · split <;> exact ⟨rfl, rfl, rfl⟩

/-- The state in which the completion callback of one pass runs. -/
theorem iteration_eq (env : IterEnv R) (st : Sys) :
    ∃ pre : Sys, pre.world = st.world ∧ pre.self.imagePath = st.self.imagePath ∧
      pre.self.imagesSaved = st.self.imagesSaved ∧
      (iteration fmt env st).world = (completionCallback fmt env.save pre).world ∧
      (iteration fmt env st).self.imagePath = (completionCallback fmt env.save pre).self.imagePath ∧
      (iteration fmt env st).self.imagesSaved =
        (completionCallback fmt env.save pre).self.imagesSaved := by
  obtain ⟨h1, h2, -⟩ := ReadPixelsNonBlocking_keeps env.capture st.self
  refine ⟨_, ?_, ?_, ?_, rfl, rfl, rfl⟩
  · rfl
  · cases hs : env.stopRequested <;> cases hc : (ReadPixelsNonBlocking env.capture st.self).2 <;>
      simp [Stop, ReadSurfaceCommand, h1]
  · cases hs : env.stopRequested <;> cases hc : (ReadPixelsNonBlocking env.capture st.self).2 <;>
      simp [Stop, ReadSurfaceCommand, h2]

theorem iteration_sequential (env : IterEnv R) (st : Sys) (h : Sequential st) :
    Sequential (iteration fmt env st) := by
  obtain ⟨pre, hw, hp, hn, ew, ep, en⟩ := iteration_eq fmt env st
  have hpre : Sequential pre := by
    unfold Sequential at h ⊢
    rw [hw, hp, hn]; exact h
  have := completionCallback_sequential fmt env.save pre hpre
  unfold Sequential at this ⊢
  rw [ew, ep, en]; exact this

theorem Run_sequential (envs : List (IterEnv R)) (st : Sys) (h : Sequential st) :
    Sequential (Run fmt envs st) := by
  induction envs generalizing st with
  | nil => exact h
  | cons env rest ih =>
    unfold Run
    split
    · exact ih _ (iteration_sequential fmt env st h)
    · exact h

theorem Run_imagePath (envs : List (IterEnv R)) (st : Sys) :
    (Run fmt envs st).self.imagePath = st.self.imagePath := by
  induction envs generalizing st with
  | nil => rfl
  | cons env rest ih =>
    unfold Run
    split
    · rw [ih]
      obtain ⟨pre, -, hp, -, -, ep, -⟩ := iteration_eq fmt env st
      rw [ep, ← hp]
      unfold completionCallback
      split
      · exact (SaveImage_effect fmt env.save pre).1
      · rfl
    · rfl

end Sequence

section Counting

variable {R : Type} (fmt : R → String)

theorem beforeCallback_keeps (env : IterEnv R) (st : Sys) :
    (beforeCallback env st).world = st.world ∧
      (beforeCallback env st).self.imagePath = st.self.imagePath ∧
      (beforeCallback env st).self.imagesSaved = st.self.imagesSaved := by
  obtain ⟨h1, h2, -⟩ := ReadPixelsNonBlocking_keeps env.capture st.self
  refine ⟨rfl, ?_, ?_⟩
  · cases hs : env.stopRequested <;> cases hc : (ReadPixelsNonBlocking env.capture st.self).2 <;>
      simp [beforeCallback, hs, hc, Stop, ReadSurfaceCommand, h1]
  · cases hs : env.stopRequested <;> cases hc : (ReadPixelsNonBlocking env.capture st.self).2 <;>
      simp [beforeCallback, hs, hc, Stop, ReadSurfaceCommand, h2]

/-- A pass is the lambda run in the state `beforeCallback`, followed by the completion of the
delegate's event. -/
theorem iteration_unfold (env : IterEnv R) (st : Sys) :
    iteration fmt env st =
      { completionCallback fmt env.save (beforeCallback env st) with
        self := { (completionCallback fmt env.save (beforeCallback env st)).self with
          CompletionStatus := completeEvent
            (completionCallback fmt env.save (beforeCallback env st)).self.CompletionStatus } } :=
  rfl

theorem iteration_counter (env : IterEnv R) (st : Sys) :
    (iteration fmt env st).self.imagesSaved =
      st.self.imagesSaved + (if saveSucceeds env st then 1 else 0) := by
  have hit : (iteration fmt env st).self.imagesSaved =
      (completionCallback fmt env.save (beforeCallback env st)).self.imagesSaved := rfl
  obtain ⟨-, -, hn⟩ := beforeCallback_keeps env st
  rw [hit, ← hn]
  unfold saveSucceeds completionCallback
  by_cases hstop : (beforeCallback env st).self.StopTaskCounter = 0
  · rw [if_pos hstop]
    by_cases hg : saveGuard (beforeCallback env st)
    · by_cases hok : env.save.imageSavedOk = true
      · rw [SaveImage_ok fmt env.save _ hg hok, if_pos ⟨hstop, hg, hok⟩]
      · have hfail : env.save.imageSavedOk = false := by simpa using hok
        rw [SaveImage_fail fmt env.save _ hg hfail, if_neg (fun h => hok h.2.2)]
        rfl
    · rw [SaveImage_skip fmt env.save _ hg, if_neg (fun h => hg h.2.1)]
      rfl
  · rw [if_neg hstop, if_neg (fun h => hstop h.1)]
    rfl

theorem Run_counter (envs : List (IterEnv R)) (st : Sys) :
    (Run fmt envs st).self.imagesSaved = st.self.imagesSaved + successfulSaves fmt envs st := by
  induction envs generalizing st with
  | nil => simp [Run, successfulSaves]
  | cons env rest ih =>
    unfold Run successfulSaves
    by_cases hstop : st.self.StopTaskCounter = 0
    · rw [if_pos hstop, if_pos hstop, ih, iteration_counter]
      omega
    · rw [if_neg hstop, if_neg hstop]
      rfl

end Counting

section Iteration

variable {R : Type} (fmt : R → String)

/-- A pass in which the capture is available, nobody calls `Stop()`, the surface is non-empty
and the file write succeeds: the frame is stored under the current counter. -/
theorem iteration_saves (env : IterEnv R) (st : Sys)
    (cap : USceneCaptureComponent2D) (target : UTextureRenderTarget2D)
    (res : FTextureRenderTargetResource)
    (hcap : env.capture = some cap) (htarget : cap.TextureTarget = some target)
    (hres : target.RenderTargetResource = some res) (hdata : res.surfaceData ≠ [])
    (hrace : env.stopRequested = false) (hok : env.save.imageSavedOk = true)
    (hrun : st.self.StopTaskCounter = 0) :
    (iteration fmt env st).world.files = st.world.files ++
        [(framePath st.self.imagePath st.self.imagesSaved,
          CompressImageArray target.SurfaceWidth target.SurfaceHeight res.surfaceData)] ∧
      (iteration fmt env st).world.record_file = st.world.record_file ++
        recordText fmt (timestampMillis env.save.nowNanos) env.save.kinematics ∧
      (iteration fmt env st).self.imagesSaved = st.self.imagesSaved + 1 := by
  have hlen : 0 < res.surfaceData.length := List.length_pos.mpr hdata
  simp [iteration, ReadPixelsNonBlocking, hcap, htarget, hres, hrace, ReadSurfaceCommand,
    completeEvent, completionCallback, hrun, SaveImage, hlen, hok]

/-- A pass in which `Stop()` arrives before the callback runs changes neither the world nor the
counter. -/
theorem iteration_stopped (env : IterEnv R) (st : Sys) (hrace : env.stopRequested = true) :
    (iteration fmt env st).world = st.world ∧
      (iteration fmt env st).self.imagesSaved = st.self.imagesSaved := by
  obtain ⟨-, h2, -⟩ := ReadPixelsNonBlocking_keeps env.capture st.self
  cases hc : (ReadPixelsNonBlocking env.capture st.self).2 <;>
    simp [iteration, hrace, Stop, completionCallback, hc, ReadSurfaceCommand, h2]

end Iteration

/-- C2. A failed file write leaves the record stream and the counter alone. If the file write
of `SaveImage` reports failure, the record stream, the list of written files and the counter
`imagesSaved` are what they were before the call; and when the next pass of the loop then
captures a non-empty surface and its file write succeeds, the file it writes is named by that
same counter value. -/
theorem failed_save_keeps_counter_and_log {R : Type} (fmt : R → String) (env : SaveEnv R)
    (st : Sys) (next : IterEnv R) (cap : USceneCaptureComponent2D)
    (target : UTextureRenderTarget2D) (res : FTextureRenderTargetResource)
    (hfail : env.imageSavedOk = false)
    (hcap : next.capture = some cap) (htarget : cap.TextureTarget = some target)
    (hres : target.RenderTargetResource = some res) (hdata : res.surfaceData ≠ [])
    (hrace : next.stopRequested = false) (hok : next.save.imageSavedOk = true)
    (hrun : st.self.StopTaskCounter = 0) :
    (SaveImage fmt env st).world.record_file = st.world.record_file ∧
      (SaveImage fmt env st).world.files = st.world.files ∧
      (SaveImage fmt env st).self.imagesSaved = st.self.imagesSaved ∧
      (iteration fmt next (SaveImage fmt env st)).world.files = st.world.files ++
        [(framePath st.self.imagePath st.self.imagesSaved,
          CompressImageArray target.SurfaceWidth target.SurfaceHeight res.surfaceData)] := by
  have hkeep : (SaveImage fmt env st).world.record_file = st.world.record_file ∧
      (SaveImage fmt env st).world.files = st.world.files ∧
      (SaveImage fmt env st).self.imagesSaved = st.self.imagesSaved ∧
      (SaveImage fmt env st).self.imagePath = st.self.imagePath ∧
      (SaveImage fmt env st).self.StopTaskCounter = st.self.StopTaskCounter := by
    by_cases hg : saveGuard st
    · rw [SaveImage_fail fmt env st hg hfail]
      exact ⟨rfl, rfl, rfl, rfl, rfl⟩
    · rw [SaveImage_skip fmt env st hg]
      exact ⟨rfl, rfl, rfl, rfl, rfl⟩
  obtain ⟨h1, h2, h3, h4, h5⟩ := hkeep
  refine ⟨h1, h2, h3, ?_⟩
  have := (iteration_saves fmt next (SaveImage fmt env st) cap target res hcap htarget hres hdata
    hrace hok (h5.trans hrun)).1
  rw [this, h2, h3, h4]

/-- Witness for C2: the fourth frame fails to be written, the next pass writes `img3.png`. -/
theorem failed_save_keeps_counter_and_log_witness :
    (SaveImage fmtWhole (sampleSave false 5000000) (readyToSave 3)).world.record_file = "" ∧
      (SaveImage fmtWhole (sampleSave false 5000000) (readyToSave 3)).world.files = [] ∧
      (SaveImage fmtWhole (sampleSave false 5000000) (readyToSave 3)).self.imagesSaved = 3 ∧
      (iteration fmtWhole
          { capture := some readyCapture, stopRequested := false, save := sampleSave true 6000000 }
          (SaveImage fmtWhole (sampleSave false 5000000) (readyToSave 3))).world.files =
        [] ++ [(framePath "img" 3, CompressImageArray 2 2 solid2x2.surfaceData)] :=
  failed_save_keeps_counter_and_log fmtWhole (sampleSave false 5000000) (readyToSave 3)
    { capture := some readyCapture, stopRequested := false, save := sampleSave true 6000000 }
    readyCapture
    { SurfaceWidth := 2, SurfaceHeight := 2, RenderTargetResource := some solid2x2 }
    solid2x2 rfl rfl rfl rfl (by decide) rfl rfl rfl

/-- C3, evaluated on the code. After one frame has been saved, a pass in which the capture
component is null, or has no texture target, or whose target has no render resource, does not
skip the save: the buffer still holds the previous pixels, so the same image is written again
under the next index, a second record line is appended and the counter becomes 2. Only while
the buffer is still empty, as in the very first pass, does such a pass write nothing. -/
theorem unavailable_capture_saves_stale_frame :
    ((Run fmtWhole
        [{ capture := none, stopRequested := false, save := sampleSave true 5000000 }]
        (startSys "img" 0 0 "")).world = (startSys "img" 0 0 "").world ∧
      (Run fmtWhole
        [{ capture := none, stopRequested := false, save := sampleSave true 5000000 }]
        (startSys "img" 0 0 "")).self.imagesSaved = 0) ∧
    ((staleRun none).world.files =
        [("img0.png", CompressImageArray 2 2 [grey, grey, grey, grey]),
         ("img1.png", CompressImageArray 2 2 [grey, grey, grey, grey])] ∧
      (staleRun none).world.record_file =
        "5\t0\t0\t0\t1\t0\t0\t0\t\n6\t0\t0\t0\t1\t0\t0\t0\t\n" ∧
      (staleRun none).self.imagesSaved = 2) ∧
    ((staleRun (some captureWithoutTarget)).world.files =
        [("img0.png", CompressImageArray 2 2 [grey, grey, grey, grey]),
         ("img1.png", CompressImageArray 2 2 [grey, grey, grey, grey])] ∧
      (staleRun (some captureWithoutTarget)).world.record_file =
        "5\t0\t0\t0\t1\t0\t0\t0\t\n6\t0\t0\t0\t1\t0\t0\t0\t\n" ∧
      (staleRun (some captureWithoutTarget)).self.imagesSaved = 2) ∧
    ((staleRun (some captureWithoutResource)).world.files =
        [("img0.png", CompressImageArray 2 2 [grey, grey, grey, grey]),
         ("img1.png", CompressImageArray 2 2 [grey, grey, grey, grey])] ∧
      (staleRun (some captureWithoutResource)).world.record_file =
        "5\t0\t0\t0\t1\t0\t0\t0\t\n6\t0\t0\t0\t1\t0\t0\t0\t\n" ∧
      (staleRun (some captureWithoutResource)).self.imagesSaved = 2) := by
  decide

/-- C4, the claim as written fails. For the identity pose and a clock reading of 5 ms the text
that a successful save appends is not `5 0 0 0 1 0 0 0` followed directly by the newline: the
last column is followed by a tab as well. -/
theorem record_line_has_trailing_tab :
    (SaveImage fmtWhole (sampleSave true 5000000) (readyToSave 0)).world.record_file ≠
        (readyToSave 0).world.record_file ++ "5\t0\t0\t0\t1\t0\t0\t0\n" ∧
      (SaveImage fmtWhole (sampleSave true 5000000) (readyToSave 0)).world.record_file =
        (readyToSave 0).world.record_file ++ "5\t0\t0\t0\t1\t0\t0\t0\t\n" := by
  decide

/-- C4, amended. For every successful save the text appended to the record stream is the eight
columns timestampMillis, posX, posY, posZ, orientW, orientX, orientY, orientZ in that order,
each column followed by one tab, and then a newline; for a pose whose position scalars render
as 0 and whose orientation renders as 1, 0, 0, 0 the appended text is the rendering of the
millisecond value followed by tab 0 tab 0 tab 0 tab 1 tab 0 tab 0 tab 0 tab newline. -/
theorem record_line_format {R : Type} (fmt : R → String) (env : SaveEnv R) (st : Sys)
    (hguard : saveGuard st) (hok : env.imageSavedOk = true) :
    (SaveImage fmt env st).world.record_file =
        st.world.record_file ++
          (toString (timestampMillis env.nowNanos) ++ "\t"
            ++ fmt env.kinematics.pose.position.x ++ "\t"
            ++ fmt env.kinematics.pose.position.y ++ "\t"
            ++ fmt env.kinematics.pose.position.z ++ "\t"
            ++ fmt env.kinematics.pose.orientation.w ++ "\t"
            ++ fmt env.kinematics.pose.orientation.x ++ "\t"
            ++ fmt env.kinematics.pose.orientation.y ++ "\t"
            ++ fmt env.kinematics.pose.orientation.z ++ "\t" ++ "\n") ∧
      (fmt env.kinematics.pose.position.x = "0" → fmt env.kinematics.pose.position.y = "0" →
        fmt env.kinematics.pose.position.z = "0" → fmt env.kinematics.pose.orientation.w = "1" →
        fmt env.kinematics.pose.orientation.x = "0" →
        fmt env.kinematics.pose.orientation.y = "0" →
        fmt env.kinematics.pose.orientation.z = "0" →
        (SaveImage fmt env st).world.record_file =
          st.world.record_file ++
            (toString (timestampMillis env.nowNanos) ++ "\t0\t0\t0\t1\t0\t0\t0\t\n")) := by
  rw [SaveImage_ok fmt env st hguard hok]
  constructor
  · simp only [recordText, String.append_assoc]
  · intro h1 h2 h3 h4 h5 h6 h7
    simp only [recordText, h1, h2, h3, h4, h5, h6, h7, String.append_assoc]
    rfl

/-- Witness for C4: the identity pose at a clock reading of 5 ms. -/
theorem record_line_format_witness :
    (SaveImage fmtWhole (sampleSave true 5000000) (readyToSave 0)).world.record_file =
      (readyToSave 0).world.record_file ++
        (toString (timestampMillis (sampleSave true 5000000).nowNanos)
          ++ "\t0\t0\t0\t1\t0\t0\t0\t\n") :=
  (record_line_format fmtWhole (sampleSave true 5000000) (readyToSave 0) (by decide) rfl).2
    (by decide) (by decide) (by decide) (by decide) (by decide) (by decide) (by decide)

/-- C5. A stopped worker's callback does nothing. When `StopTaskCounter` is non-zero at the
time the completion callback runs, the callback returns the state unchanged: no file, no record
line, the counter as before. In particular `Stop()` makes the counter non-zero from any state,
so the callback is a no-op in every state `Stop()` leaves behind, and a pass of the loop in
which `Stop()` arrives between scheduling and running the callback changes neither the world
nor the frame counter. -/
theorem stopped_callback_is_noop {R : Type} (fmt : R → String) (env : SaveEnv R) (st : Sys)
    (hstop : st.self.StopTaskCounter ≠ 0) :
    completionCallback fmt env st = st ∧
      (∀ s0 : Sys, (Stop s0.self).StopTaskCounter ≠ 0 ∧
        completionCallback fmt env { s0 with self := Stop s0.self } =
          { s0 with self := Stop s0.self }) ∧
      (∀ (capture : Option USceneCaptureComponent2D) (s0 : Sys),
        (iteration fmt { capture := capture, stopRequested := true, save := env } s0).world =
            s0.world ∧
          (iteration fmt { capture := capture, stopRequested := true, save := env }
            s0).self.imagesSaved = s0.self.imagesSaved) := by
  refine ⟨?_, ?_, ?_⟩
  · unfold completionCallback
    rw [if_neg hstop]
  · intro s0
    have h : (Stop s0.self).StopTaskCounter ≠ 0 := by simp [Stop]
    refine ⟨h, ?_⟩
    unfold completionCallback
    rw [if_neg h]
  · intro capture s0
    exact iteration_stopped fmt _ s0 rfl

/-- Witness for C5: a worker ready to save, on which `Stop()` was called once. -/
theorem stopped_callback_is_noop_witness :
    completionCallback fmtWhole (sampleSave true 5000000)
        { readyToSave 0 with self := Stop (readyToSave 0).self } =
      { readyToSave 0 with self := Stop (readyToSave 0).self } :=
  (stopped_callback_is_noop fmtWhole (sampleSave true 5000000)
    { readyToSave 0 with self := Stop (readyToSave 0).self } (by decide)).1

/-! ## The singleton -/

theorem ThreadInit_existing (b : Bool) (address : Nat) (path : String) (AirSim : Nat)
    (p : Process) (a : Nat) (w : FRecordingThread) (h : p.Runnable = some (a, w)) :
    ThreadInit b address path AirSim p = (some a, p) := by
  simp [ThreadInit, h, Process.handle]

theorem ThreadInit_unsupported (address : Nat) (path : String) (AirSim : Nat) (p : Process) :
    ThreadInit false address path AirSim p = (p.handle, p) := by
  simp [ThreadInit]

theorem lifecycle_unsupported_empty (calls : List LifecycleCall) (p : Process)
    (h : p.Runnable = none) : (lifecycle false calls p).Runnable = none := by
  induction calls generalizing p with
  | nil => exact h
  | cons c rest ih =>
    cases c with
    | threadInit address path AirSim =>
      simp only [lifecycle]
      apply ih
      rw [ThreadInit_unsupported]
      exact h
    | shutdown =>
      simp only [lifecycle]
      apply ih
      simp [Shutdown, h]

/-- C6. Two calls, one worker. On a platform that supports multithreading, whatever the
arguments and whatever the static state before: after the first `ThreadInit` a singleton
exists and the pointer returned is the stored static pointer `Runnable`; when no singleton
existed before, the first call constructs exactly one worker from its own arguments, at the
address `new` returns, on exactly one new thread, and when one existed it is kept and
returned; the second call returns the pointer the first returned, which is still the stored
pointer, and leaves the static state as the first left it: same singleton object, same number
of created threads, no further lifecycle action. -/
theorem ThreadInit_twice_same_handle (p : Process) (address1 address2 : Nat)
    (path1 path2 : String) (AirSim1 AirSim2 : Nat) :
    (ThreadInit true address2 path2 AirSim2 (ThreadInit true address1 path1 AirSim1 p).2).1 =
        (ThreadInit true address1 path1 AirSim1 p).1 ∧
      (ThreadInit true address1 path1 AirSim1 p).1 ≠ none ∧
      (ThreadInit true address2 path2 AirSim2 (ThreadInit true address1 path1 AirSim1 p).2).2 =
        (ThreadInit true address1 path1 AirSim1 p).2 ∧
      (ThreadInit true address1 path1 AirSim1 p).1 =
        (ThreadInit true address1 path1 AirSim1 p).2.handle ∧
      (ThreadInit true address2 path2 AirSim2 (ThreadInit true address1 path1 AirSim1 p).2).1 =
        (ThreadInit true address2 path2 AirSim2
          (ThreadInit true address1 path1 AirSim1 p).2).2.handle ∧
      (ThreadInit true address1 path1 AirSim1 p).2.Runnable ≠ none ∧
      (p.Runnable = none →
        (ThreadInit true address1 path1 AirSim1 p).1 = some address1 ∧
        (ThreadInit true address1 path1 AirSim1 p).2 =
          { Runnable := some (address1, construct path1 AirSim1 p.threadsCreated)
            threadsCreated := p.threadsCreated + 1
            events := p.events ++ [Event.threadCreated p.threadsCreated] } ∧
        (ThreadInit true address2 path2 AirSim2
            (ThreadInit true address1 path1 AirSim1 p).2).2.threadsCreated =
          p.threadsCreated + 1) ∧
      (∀ (a : Nat) (w : FRecordingThread), p.Runnable = some (a, w) →
        (ThreadInit true address1 path1 AirSim1 p).1 = some a ∧
        (ThreadInit true address1 path1 AirSim1 p).2 = p) := by
  cases h : p.Runnable with
  | none =>
    have h1 : ThreadInit true address1 path1 AirSim1 p =
        (some address1,
          { Runnable := some (address1, construct path1 AirSim1 p.threadsCreated)
            threadsCreated := p.threadsCreated + 1
            events := p.events ++ [Event.threadCreated p.threadsCreated] }) := by
      simp [ThreadInit, h, Process.handle]
    rw [h1]
    rw [ThreadInit_existing true address2 path2 AirSim2 _ address1
      (construct path1 AirSim1 p.threadsCreated) rfl]
    simp [Process.handle]
  | some aw =>
    obtain ⟨a, w⟩ := aw
    rw [ThreadInit_existing true address1 path1 AirSim1 p a w h]
    rw [ThreadInit_existing true address2 path2 AirSim2 p a w h]
    simp [Process.handle, h]

/-- Witness for C6: two calls from the initial null pointer; the worker is built from the
arguments of the first call at address 7, and one thread was created. -/
theorem ThreadInit_twice_same_handle_witness :
    processStart.Runnable = none ∧
      (ThreadInit true 7 "first" 1 processStart).1 = some 7 ∧
      (ThreadInit true 7 "first" 1 processStart).2 =
        { Runnable := some (7, construct "first" 1 processStart.threadsCreated)
          threadsCreated := processStart.threadsCreated + 1
          events := processStart.events ++ [Event.threadCreated processStart.threadsCreated] } ∧
      (ThreadInit true 9 "second" 2 (ThreadInit true 7 "first" 1 processStart).2).2.threadsCreated =
        processStart.threadsCreated + 1 :=
  ⟨rfl, (ThreadInit_twice_same_handle processStart 7 9 "first" "second" 1 2).2.2.2.2.2.2.1 rfl⟩

/-- C7. No worker without multithreading. On a platform that reports no multithreading
support, in every static state that `ThreadInit` and `Shutdown` calls reach from the initial
null pointer, and for all arguments, `ThreadInit` returns null, leaves the static state as it
was, and no thread has been created. More generally, in any static state such a call creates
no worker and no thread and leaves the state untouched, and it returns the current value of
the static pointer, which is null whenever no singleton exists. -/
theorem ThreadInit_without_multithreading (address : Nat) (path : String) (AirSim : Nat)
    (p : Process) :
    (ThreadInit false address path AirSim p).2 = p ∧
      (ThreadInit false address path AirSim p).1 = p.handle ∧
      (p.Runnable = none → (ThreadInit false address path AirSim p).1 = none) ∧
      (∀ calls : List LifecycleCall,
        (ThreadInit false address path AirSim (lifecycle false calls processStart)).1 = none ∧
        (ThreadInit false address path AirSim (lifecycle false calls processStart)).2 =
          lifecycle false calls processStart ∧
        (lifecycle false calls processStart).Runnable = none ∧
        (lifecycle false calls processStart).threadsCreated = 0) := by
  rw [ThreadInit_unsupported]
  refine ⟨rfl, rfl, ?_, ?_⟩
  · intro h
    simp [Process.handle, h]
  · intro calls
    rw [ThreadInit_unsupported]
    refine ⟨?_, rfl, lifecycle_unsupported_empty calls processStart rfl, ?_⟩
    · simp [Process.handle, lifecycle_unsupported_empty calls processStart rfl]
    · have key : ∀ (cs : List LifecycleCall) (q : Process), q.Runnable = none →
          (lifecycle false cs q).threadsCreated = q.threadsCreated := by
        intro cs
        induction cs with
        | nil => intro q _; rfl
        | cons c rest ih =>
          intro q hq
          cases c with
          | threadInit a pth ctx =>
            simp only [lifecycle]
            rw [ThreadInit_unsupported]
            exact ih q hq
          | shutdown =>
            simp only [lifecycle]
            have hs : Shutdown q = q := by simp [Shutdown, hq]
            rw [hs]
            exact ih q hq
      exact key calls processStart rfl

/-- Witness for C7: the initial static state, and the state after a `ThreadInit` and a
`Shutdown` on a platform without multithreading support. -/
theorem ThreadInit_without_multithreading_witness :
    processStart.Runnable = none ∧ (ThreadInit false 9 "later" 0 processStart).1 = none ∧
      (ThreadInit false 9 "later" 0
        (lifecycle false [LifecycleCall.threadInit 7 "first" 0, LifecycleCall.shutdown]
          processStart)).1 = none :=
  ⟨rfl, (ThreadInit_without_multithreading 9 "later" 0 processStart).2.2.1 rfl,
    ((ThreadInit_without_multithreading 9 "later" 0 processStart).2.2.2
      [LifecycleCall.threadInit 7 "first" 0, LifecycleCall.shutdown]).1⟩

/-- C8. Shutdown is idempotent. After `Shutdown()` the static pointer is null; a second
`Shutdown()` returns the same static state, so it adds no lifecycle action at all; without a
singleton `Shutdown()` changes nothing; and with a singleton at `address` the first call
performs, in this order, `Stop()` (which leaves the stop counter non-zero and both event
references null), the join of the worker's thread, the message, the deletion of the thread
object and the deletion of the worker. -/
theorem Shutdown_idempotent (p : Process) :
    (Shutdown p).Runnable = none ∧
      Shutdown (Shutdown p) = Shutdown p ∧
      (p.Runnable = none → Shutdown p = p) ∧
      (∀ (address : Nat) (self : FRecordingThread), p.Runnable = some (address, self) →
        (EnsureCompletion address self p.events).1.StopTaskCounter ≠ 0 ∧
        (EnsureCompletion address self p.events).1.CompletionStatus = none ∧
        (EnsureCompletion address self p.events).1.RenderStatus = none ∧
        (EnsureCompletion address self p.events).2 =
          p.events ++ [Event.stopped address, Event.joined self.Thread,
            Event.logged "Stopped recording thread"] ∧
        (Shutdown p).events =
          p.events ++ [Event.stopped address, Event.joined self.Thread,
            Event.logged "Stopped recording thread",
            Event.threadDeleted self.Thread, Event.workerDeleted address] ∧
        (Shutdown p).threadsCreated = p.threadsCreated) := by
  have hnull : (Shutdown p).Runnable = none := by
    unfold Shutdown
    split <;> simp_all
  refine ⟨hnull, ?_, ?_, ?_⟩
  · generalize Shutdown p = q at hnull
    simp [Shutdown, hnull]
  · intro h
    simp [Shutdown, h]
  · intro address self h
    simp [Shutdown, h, EnsureCompletion, Stop]

/-- Witness for C8: a process whose singleton lives at address 7 and runs on thread 0. -/
theorem Shutdown_idempotent_witness :
    (Shutdown { Runnable := some (7, construct "first" 0 0), threadsCreated := 1,
                events := [Event.threadCreated 0] }).events =
      [Event.threadCreated 0] ++ [Event.stopped 7, Event.joined (construct "first" 0 0).Thread,
        Event.logged "Stopped recording thread",
        Event.threadDeleted (construct "first" 0 0).Thread, Event.workerDeleted 7] :=
  ((Shutdown_idempotent
      { Runnable := some (7, construct "first" 0 0), threadsCreated := 1,
        events := [Event.threadCreated 0] }).2.2.2 7 (construct "first" 0 0) rfl).2.2.2.2.1

/-! ## The clock conversion -/

theorem roundHalfEven_bounds (a b : Nat) (hb : 0 < b) :
    2 * (b * roundHalfEven a b) ≤ 2 * a + b ∧ 2 * a ≤ 2 * (b * roundHalfEven a b) + b := by
  have h := Nat.div_add_mod a b
  have hr := Nat.mod_lt a hb
  unfold roundHalfEven
  simp only []
  split_ifs <;> (try simp only [Nat.mul_add, Nat.mul_one]) <;> omega

theorem roundHalfEven_one (a : Nat) : roundHalfEven a 1 = a := by
  simp [roundHalfEven, Nat.mod_one]

theorem leastFrom_le (p : Nat → Bool) (fuel k : Nat) : leastFrom p fuel k ≤ k + fuel := by
  induction fuel generalizing k with
  | zero => simp [leastFrom]
  | succ f ih =>
    simp only [leastFrom]
    split
    · omega
    · have := ih (k + 1)
      omega

theorem leastFrom_skip (p : Nat → Bool) (fuel k c : Nat) (hc : c ≤ fuel)
    (h : ∀ j, k ≤ j → j < k + c → p j = false) : k + c ≤ leastFrom p fuel k := by
  induction fuel generalizing k c with
  | zero =>
    have : c = 0 := by omega
    subst this
    simp [leastFrom]
  | succ f ih =>
    simp only [leastFrom]
    cases c with
    | zero =>
      split
      · omega
      · have := ih (k + 1) 0 (by omega) (by intro j h1 h2; omega)
        omega
    | succ c =>
      have hk : p k = false := h k (Nat.le_refl k) (by omega)
      simp only [hk, Bool.false_eq_true, if_false]
      have := ih (k + 1) c (by omega) (by intro j h1 h2; exact h j (by omega) (by omega))
      omega

theorem droppedBits_le (n : Nat) : droppedBits n ≤ 11 := by
  have := leastFrom_le (fun s => decide (n < 2 ^ (53 + s))) 11 0
  unfold droppedBits
  omega

theorem uint64ToDouble_exact (n : Nat) (h : n < 2 ^ 53) : uint64ToDouble n = n := by
  have hs : droppedBits n = 0 := by
    have hp : (fun s => decide (n < 2 ^ (53 + s))) 0 = true := by
      simpa using h
    show leastFrom (fun s => decide (n < 2 ^ (53 + s))) (10 + 1) 0 = 0
    rw [leastFrom, if_pos hp]
  unfold uint64ToDouble
  rw [hs]
  simp [roundHalfEven_one]

theorem uint64ToDouble_near (n : Nat) :
    uint64ToDouble n ≤ n + 1024 ∧ n ≤ uint64ToDouble n + 1024 := by
  have hs := droppedBits_le n
  have hpos : 0 < 2 ^ droppedBits n := Nat.pos_pow_of_pos _ (by decide)
  have hle : 2 ^ droppedBits n ≤ 2 ^ 11 := Nat.pow_le_pow_right (by decide) hs
  obtain ⟨h1, h2⟩ := roundHalfEven_bounds n (2 ^ droppedBits n) hpos
  unfold uint64ToDouble
  rw [Nat.mul_comm (roundHalfEven n (2 ^ droppedBits n))]
  norm_num at hle
  omega

theorem quotientScale_ge (a : Nat) (ha : a < 2 ^ 53) : 19 ≤ quotientScale a 1000000 := by
  have := leastFrom_skip (fun k => decide (2 ^ 52 * 1000000 ≤ a * 2 ^ k)) 1074 0 19 (by decide)
    (by
      intro j _ hj
      have hj18 : j ≤ 18 := by omega
      have hp : 2 ^ j ≤ 2 ^ 18 := Nat.pow_le_pow_right (by decide) hj18
      have h1 : a * 2 ^ j ≤ a * 2 ^ 18 := Nat.mul_le_mul_left a hp
      have h2 : a * 2 ^ 18 < 2 ^ 53 * 2 ^ 18 := Nat.mul_lt_mul_of_pos_right ha (by decide)
      have h3 : (2 : Nat) ^ 53 * 2 ^ 18 ≤ 2 ^ 52 * 1000000 := by decide
      simp only [decide_eq_false_iff_not, Nat.not_le]
      omega)
  unfold quotientScale
  omega

/-- Below `2 ^ 53` the conversion is the integer quotient. -/
theorem timestampMillis_exact (n : Nat) (h : n < 2 ^ 53) : timestampMillis n = n / 1000000 := by
  unfold timestampMillis
  rw [uint64ToDouble_exact n h]
  unfold doubleDiv doubleToUint64
  by_cases h0 : n = 0
  · subst h0
    simp
  · rw [if_neg h0]
    simp only []
    have hk := quotientScale_ge n h
    generalize quotientScale n 1000000 = k at hk
    have hP : 2 ^ 19 ≤ 2 ^ k := Nat.pow_le_pow_right (by decide) hk
    norm_num at hP
    obtain ⟨h1, h2⟩ := roundHalfEven_bounds (n * 2 ^ k) 1000000 (by decide)
    generalize roundHalfEven (n * 2 ^ k) 1000000 = m at h1 h2
    have hdm := Nat.div_add_mod n 1000000
    have hr := Nat.mod_lt n (show 0 < 1000000 by decide)
    generalize n / 1000000 = q at hdm
    generalize n % 1000000 = r at hdm hr
    generalize hPdef : 2 ^ k = P at hP h1 h2
    -- n * P = 1000000 * (q * P) + r * P
    have e1 : n * P = 1000000 * (q * P) + r * P := by
      rw [← hdm]; ring
    have e2 : r * P + P ≤ 1000000 * P := by
      have : (r + 1) * P ≤ 1000000 * P := Nat.mul_le_mul_right P (by omega)
      calc r * P + P = (r + 1) * P := by ring
        _ ≤ 1000000 * P := this
    apply Nat.div_eq_of_lt_le
    · omega
    · have : (q + 1) * P = q * P + P := by ring
      rw [this]
      omega

/-- For every reading the conversion is within one of the integer quotient. -/
theorem timestampMillis_near (n : Nat) :
    timestampMillis n ≤ n / 1000000 + 1 ∧ n / 1000000 ≤ timestampMillis n + 1 := by
  obtain ⟨hd1, hd2⟩ := uint64ToDouble_near n
  unfold timestampMillis
  generalize uint64ToDouble n = d at hd1 hd2
  unfold doubleDiv doubleToUint64
  have hdm := Nat.div_add_mod n 1000000
  have hr := Nat.mod_lt n (show 0 < 1000000 by decide)
  by_cases h0 : d = 0
  · subst h0
    simp only [if_true, Nat.zero_div]
    have : n / 1000000 = 0 := Nat.div_eq_of_lt (by omega)
    omega
  · rw [if_neg h0]
    simp only []
    generalize quotientScale d 1000000 = k
    have hP : 0 < 2 ^ k := Nat.pos_pow_of_pos _ (by decide)
    obtain ⟨h1, h2⟩ := roundHalfEven_bounds (d * 2 ^ k) 1000000 (by decide)
    generalize roundHalfEven (d * 2 ^ k) 1000000 = m at h1 h2
    generalize n / 1000000 = q at hdm
    generalize n % 1000000 = r at hdm hr
    generalize 2 ^ k = P at hP h1 h2
    have e1 : n * P = 1000000 * (q * P) + r * P := by
      rw [← hdm]; ring
    have e2 : r * P + P ≤ 1000000 * P := by
      have : (r + 1) * P ≤ 1000000 * P := Nat.mul_le_mul_right P (by omega)
      calc r * P + P = (r + 1) * P := by ring
        _ ≤ 1000000 * P := this
    have e3 : d * P ≤ n * P + 1024 * P := by
      have := Nat.mul_le_mul_right P hd1
      calc d * P ≤ (n + 1024) * P := this
        _ = n * P + 1024 * P := by ring
    have e4 : n * P ≤ d * P + 1024 * P := by
      have := Nat.mul_le_mul_right P hd2
      calc n * P ≤ (d + 1024) * P := this
        _ = d * P + 1024 * P := by ring
    constructor
    · have : m / P < q + 2 := by
        rw [Nat.div_lt_iff_lt_mul hP]
        have : (q + 2) * P = q * P + 2 * P := by ring
        rw [this]
        omega
      omega
    · have hlt : m < P * (m / P + 1) := Nat.lt_mul_div_succ m hP
      generalize m / P = l at hlt
      by_contra hcon
      have hq : l + 2 ≤ q := by omega
      have e5 : (l + 2) * P ≤ q * P := Nat.mul_le_mul_right P hq
      have e6 : (l + 2) * P = l * P + 2 * P := by ring
      have e7 : P * (l + 1) = l * P + P := by ring
      rw [e6] at e5
      rw [e7] at hlt
      omega

/-- C9, the claim as written fails. For the clock reading 1500000000000999999 ns (a time in
July 2017) the integer quotient is 1500000000000, but a successful save writes 1500000000001:
as a `double` the reading is 1500000000000999936, and the quotient 1500000000000.999936 is not
a `double`; the nearest one is 1500000000001, since doubles of that size are 2^-12 apart. -/
theorem timestamp_is_not_integer_quotient :
    1500000000000999999 < 2 ^ 64 ∧
      uint64ToDouble 1500000000000999999 = 1500000000000999936 ∧
      doubleDiv 1500000000000999936 1000000 = (1500000000001 * 2 ^ 12, 12) ∧
      timestampMillis 1500000000000999999 = 1500000000001 ∧
      1500000000000999999 / 1000000 = 1500000000000 ∧
      timestampMillis 1500000000000999999 ≠ 1500000000000999999 / 1000000 ∧
      (SaveImage fmtWhole (sampleSave true 1500000000000999999) (readyToSave 0)).world.record_file =
        "1500000000001\t0\t0\t0\t1\t0\t0\t0\t\n" := by
  decide

/-- C9, amended. The timestamp written by a successful save is the truncation of the binary64
quotient of the clock reading by 1.0E6. For every reading below 2^53 it equals the truncating
integer quotient n / 1000000, and for every unsigned 64-bit reading it differs from that
quotient by at most one. -/
theorem timestamp_close_to_integer_quotient {R : Type} (fmt : R → String) (env : SaveEnv R)
    (st : Sys) (hguard : saveGuard st) (hok : env.imageSavedOk = true)
    (_hclock : env.nowNanos < 2 ^ 64) :
    (SaveImage fmt env st).world.record_file =
        st.world.record_file ++
          recordText fmt (timestampMillis env.nowNanos) env.kinematics ∧
      (env.nowNanos < 2 ^ 53 → timestampMillis env.nowNanos = env.nowNanos / 1000000) ∧
      timestampMillis env.nowNanos ≤ env.nowNanos / 1000000 + 1 ∧
      env.nowNanos / 1000000 ≤ timestampMillis env.nowNanos + 1 := by
  rw [SaveImage_ok fmt env st hguard hok]
  exact ⟨rfl, timestampMillis_exact env.nowNanos, timestampMillis_near env.nowNanos⟩

/-- Witness for C9: a reading of 5000000 ns gives 5 ms. -/
theorem timestamp_close_to_integer_quotient_witness :
    timestampMillis (sampleSave true 5000000).nowNanos =
      (sampleSave true 5000000).nowNanos / 1000000 :=
  (timestamp_close_to_integer_quotient fmtWhole (sampleSave true 5000000) (readyToSave 0)
    (by decide) rfl (by decide)).2.1 (by decide)

end RecordingThread
